import Mathlib

/-!
Shallow embedding of the supertokens_rust client library
(src/lib.rs, src/constants.rs, src/recipe/jwt.rs,
src/recipe/email_password/sign_in.rs, src/roles.rs).

Modelling conventions:
- Rust `Result<T, E>` is `RustResult T E`.
- A `reqwest` outcome as observed by the code is
  `RustResult (Response β) ReqError`: either a delivered response
  (status code, optional raw body text, body optionally decoded against
  the operation schema `β`) or a transport error carrying an optional
  status and a display message (what `err.to_string()` yields).
- A Rust panic (`unwrap` / `expect` / failed `assert_ne!`) is modelled by
  the embedded function returning `none`; a normal return is `some _`.
- `Duration` values are their whole-second counts as `Nat`; the `as u32`
  cast is an explicit `% 2 ^ 32`.
-/

set_option autoImplicit false
set_option maxRecDepth 10000

namespace Supertokens

/-- Rust `Result<T, E>` (`Ok` / `Err`). -/
inductive RustResult (α : Type) (ε : Type) where
  | ok (value : α)
  | err (error : ε)
  deriving Repr, DecidableEq

/-- A `reqwest::Error` as the code observes it: `err.status()` is an
optional HTTP status, `err.to_string()` is a display message generated by
the transport (it is not a response body). -/
structure ReqError where
  status : Option Nat
  msg : String
  deriving Repr, DecidableEq

/-- A delivered HTTP response as an operation observes it: the status
code, the raw body text as read by `resp.text()` (`none` when reading
fails), and the body decoded against the operation schema `β`
(`none` when `resp.json::<β>()` fails to decode). -/
structure Response (β : Type) where
  status : Nat
  text : Option String
  body : Option β
  deriving Repr, DecidableEq

/-- `struct SuperTokens` in src/lib.rs: the service configuration. -/
structure SuperTokens where
  app_id : String
  tenant_id : String
  core_domain : String
  api_key : String
  cdi_version : String
  deriving Repr, DecidableEq

/-- `impl Default for SuperTokens` in src/lib.rs. -/
def SuperTokens.default : SuperTokens where
  app_id := "public"
  tenant_id := "public"
  core_domain := ""
  api_key := ""
  cdi_version := "4.0"

/-- `enum Recipe` in src/lib.rs. -/
inductive Recipe where
  | emailPassword
  | passwordLess
  | thirdParty
  | jwt
  deriving Repr, DecidableEq

/-- `impl From<Recipe> for HeaderValue` in src/lib.rs: the `rid` header
value for each recipe. -/
def Recipe.rid : Recipe → String
  | .emailPassword => "emailpassword"
  | .passwordLess => "passwordless"
  | .thirdParty => "thirdparty"
  | .jwt => "jwt"

/-- src/constants.rs: `ENDPOINT_CORE_JWKS`. -/
def ENDPOINT_CORE_JWKS : String := ".well-known/jwks.json"

/-- src/constants.rs: `ENDPOINT_JWT`. -/
def ENDPOINT_JWT : String := "recipe/jwt"

/-- src/constants.rs: `ENDPOINT_RECIPE_SIGNIN`. -/
def ENDPOINT_RECIPE_SIGNIN : String := "recipe/signin"

/-- src/constants.rs: `DEFAULT_JWT_EXPIRATION_TIME = Duration::new(86400, 0)`,
in whole seconds. -/
def DEFAULT_JWT_EXPIRATION_TIME : Nat := 86400

/-- src/roles.rs: `ADD_ROLE_TO_USER_ENDPOINT`. -/
def ADD_ROLE_TO_USER_ENDPOINT : String := "recipe/user/role"

/-- `SuperTokens::get_url` in src/lib.rs.
`endpoint.to_owned().chars().next().unwrap()` panics on the empty string
(`none`); `assert_ne!(.., '/')` aborts when the first character is `/`
(`none`); otherwise the URL is
`format!("{}/appid-{}/{}", core_domain, app_id, endpoint)`. -/
def SuperTokens.get_url (st : SuperTokens) (endpoint : String) : Option String :=
  match endpoint.data with
  | [] => none
  | c :: _ =>
    if c = '/' then none
    else some (st.core_domain ++ "/appid-" ++ st.app_id ++ "/" ++ endpoint)

/-- `SuperTokens::get_url_with_tenant` in src/lib.rs: like `get_url` but
inserting `tenant_id` before the endpoint. -/
def SuperTokens.get_url_with_tenant (st : SuperTokens) (endpoint : String) : Option String :=
  match endpoint.data with
  | [] => none
  | c :: _ =>
    if c = '/' then none
    else some (st.core_domain ++ "/appid-" ++ st.app_id ++ "/" ++ st.tenant_id ++ "/" ++ endpoint)

/-- `SuperTokens::get_headers` in src/lib.rs, as an association list in
insertion order: optionally `rid`, then `api-key`, then `cdi-version`. -/
def SuperTokens.get_headers (st : SuperTokens) (recipe : Option Recipe) : List (String × String) :=
  (match recipe with
    | some r => [("rid", r.rid)]
    | none => []) ++
  [("api-key", st.api_key), ("cdi-version", st.cdi_version)]

/-- An outgoing HTTP request as built by an operation before it is sent:
method, URL and the headers the code attaches. -/
structure BuiltRequest where
  method : String
  url : String
  headers : List (String × String)
  deriving Repr, DecidableEq

/-! ## Sign-in (src/recipe/email_password/sign_in.rs) -/

/-- `struct ThirdParty` in src/recipe/email_password/sign_in.rs. -/
structure ThirdParty where
  id : String
  user_id : String
  deriving Repr, DecidableEq

/-- `struct LoginMethod` in src/recipe/email_password/sign_in.rs. -/
structure LoginMethod where
  tenant_ids : List String
  recipe_user_id : String
  verified : Bool
  time_joined : Int
  recipe_id : String
  email : String
  phone_number : String
  third_party : ThirdParty
  deriving Repr, DecidableEq

/-- `struct User` in src/recipe/email_password/sign_in.rs. -/
structure User where
  id : String
  is_primary_user : Bool
  tenant_ids : List String
  time_joined : Int
  emails : List String
  phone_numbers : List String
  third_party : List ThirdParty
  login_methods : List LoginMethod
  deriving Repr, DecidableEq

/-- `struct SignInRequest` in src/recipe/email_password/sign_in.rs. -/
structure SignInRequest where
  email : String
  password : String
  deriving Repr, DecidableEq

/-- `struct SignInResponseRaw` in src/recipe/email_password/sign_in.rs. -/
structure SignInResponseRaw where
  status : String
  user : Option User
  recipe_user_id : Option String
  deriving Repr, DecidableEq

/-- `struct SignInSuccess` in src/recipe/email_password/sign_in.rs. -/
structure SignInSuccess where
  user : User
  user_id : String
  deriving Repr, DecidableEq

/-- `enum SignInError` in src/recipe/email_password/sign_in.rs. -/
inductive SignInError where
  | badRequest (message : String)
  | wrongCredentials
  | invalidApiKey
  | notFound
  | internalError
  | unknown
  deriving Repr, DecidableEq

/-- `impl From<Error> for SignInError`: every transport error becomes
`Unknown`. -/
def SignInError.from_req_error (_e : ReqError) : SignInError :=
  .unknown

/-- The request built by `sign_in` (src/recipe/email_password/sign_in.rs
lines 19-27): POST to the tenant-scoped sign-in URL with the
email-password recipe headers. `none` when URL construction panics. -/
def sign_in_request (st : SuperTokens) : Option BuiltRequest :=
  (st.get_url_with_tenant ENDPOINT_RECIPE_SIGNIN).map fun u =>
    { method := "POST", url := u, headers := st.get_headers (some .emailPassword) }

/-- Response handling of `sign_in` (src/recipe/email_password/sign_in.rs
lines 27-53). The `?` on `send()` maps a transport error through
`SignInError.from_req_error`. On status 200 the body is decoded
(`.expect("Invalid JSON struct")` panics when decoding fails, modelled
`none`); a body status other than "OK" is `WrongCredentials`; on "OK" the
success record is built from `recipe_user_id` and `user`
(`.expect("Is valid here")` panics when either is absent). Other statuses
map 400 to `BadRequest(resp.text() or "Bad Request")`, 401 to
`InvalidApiKey`, 404 to `NotFound`, 500 to `InternalError`, anything else
to `Unknown`. -/
def sign_in (resp : RustResult (Response SignInResponseRaw) ReqError) :
    Option (RustResult SignInSuccess SignInError) :=
  match resp with
  | .err e => some (.err (SignInError.from_req_error e))
  | .ok r =>
    if r.status = 200 then
      match r.body with
      | none => none
      | some json =>
        if json.status ≠ "OK" then
          some (.err .wrongCredentials)
        else
          match json.recipe_user_id, json.user with
          | some uid, some u => some (.ok { user := u, user_id := uid })
          | _, _ => none
    else
      some (.err (match r.status with
        | 400 => .badRequest (r.text.getD "Bad Request")
        | 401 => .invalidApiKey
        | 404 => .notFound
        | 500 => .internalError
        | _ => .unknown))

/-! ## JWT (src/recipe/jwt.rs) -/

/-- `struct JwtCreationRequest<T>` in src/recipe/jwt.rs. `validity` is a
`u32` on the wire. -/
structure JwtCreationRequest (T : Type) where
  payload : T
  algorithm : String
  jwks_domain : String
  validity : Nat
  use_static_signing_key : Bool
  deriving Repr, DecidableEq

/-- `JwtCreationRequest::new` in src/recipe/jwt.rs lines 77-87. -/
def JwtCreationRequest.new {T : Type} (payload : T) (domain : String)
    (expiration_time_seconds : Nat) : JwtCreationRequest T where
  algorithm := "RS256"
  validity := expiration_time_seconds
  jwks_domain := domain
  use_static_signing_key := true
  payload := payload

/-- The body built by `create_token` (src/recipe/jwt.rs lines 12-18):
`expiration_time.unwrap_or(DEFAULT_JWT_EXPIRATION_TIME).as_secs() as u32`,
the `u32` cast reducing the second count modulo `2 ^ 32`. -/
def create_token_body {T : Type} (payload : T) (st : SuperTokens)
    (expiration_time : Option Nat) : JwtCreationRequest T :=
  JwtCreationRequest.new payload st.core_domain
    ((expiration_time.getD DEFAULT_JWT_EXPIRATION_TIME) % 2 ^ 32)

/-- The request built by `create_token` (src/recipe/jwt.rs lines 20-25):
POST to the application-scoped JWT URL with the jwt recipe headers. -/
def create_token_request (st : SuperTokens) : Option BuiltRequest :=
  (st.get_url ENDPOINT_JWT).map fun u =>
    { method := "POST", url := u, headers := st.get_headers (some .jwt) }

/-- `enum JwtCreationError` in src/recipe/jwt.rs. -/
inductive JwtCreationError where
  | badRequest (message : String)
  | unsupportedAlgorithm
  | notFound
  | internalError
  | unknown
  deriving Repr, DecidableEq

/-- `struct JwtResponsePayload` in src/recipe/jwt.rs. -/
structure JwtResponsePayload where
  status : String
  jwt : Option String
  deriving Repr, DecidableEq

/-- Response handling of `create_token` (src/recipe/jwt.rs lines 27-50).
A transport error is matched on `err.status()`: no status is `Unknown`;
400 is `BadRequest("Bad Request")`, 404 `NotFound`, 500 `InternalError`,
anything else `Unknown` (there is no 401 branch). A delivered response
has its body decoded (`.expect("Json for status 200")` panics when
decoding fails); body status "OK" returns the jwt
(`.expect("Is here since status is OK")` panics when absent), any other
body status is `UnsupportedAlgorithm`. -/
def create_token_classify (resp : RustResult (Response JwtResponsePayload) ReqError) :
    Option (RustResult String JwtCreationError) :=
  match resp with
  | .err e =>
    some (.err (match e.status with
      | none => .unknown
      | some s =>
        match s with
        | 400 => .badRequest "Bad Request"
        | 404 => .notFound
        | 500 => .internalError
        | _ => .unknown))
  | .ok r =>
    match r.body with
    | none => none
    | some p =>
      if p.status = "OK" then
        match p.jwt with
        | some jwt => some (.ok jwt)
        | none => none
      else
        some (.err .unsupportedAlgorithm)

/-- `struct Jwk` in src/recipe/jwt.rs. -/
structure Jwk where
  alg : String
  kty : String
  key_use : String
  kid : String
  x5c : List String
  deriving Repr, DecidableEq

/-- `struct Jwks` in src/recipe/jwt.rs. -/
structure Jwks where
  keys : List Jwk
  deriving Repr, DecidableEq

/-- `enum JwksError` in src/recipe/jwt.rs. -/
inductive JwksError where
  | notFound
  | internal
  | responseFormat
  | unknown
  deriving Repr, DecidableEq

/-- The request sent by `get_jwks` (src/recipe/jwt.rs line 115):
`reqwest::get(core_url.to_owned() + ENDPOINT_CORE_JWKS)`, a GET with no
headers attached by the code. -/
def get_jwks_request (core_url : String) : BuiltRequest where
  method := "GET"
  url := core_url ++ ENDPOINT_CORE_JWKS
  headers := []

/-- Response handling of `get_jwks` (src/recipe/jwt.rs lines 117-130).
A delivered response whose body decodes as `Jwks` is success; a decode
failure is `ResponseFormat`. A transport error whose status
`is_server_error()` (500-599) is `Internal`; otherwise `Unknown`. -/
def get_jwks (resp : RustResult (Response Jwks) ReqError) : RustResult Jwks JwksError :=
  match resp with
  | .ok r =>
    match r.body with
    | some v => .ok v
    | none => .err .responseFormat
  | .err e =>
    match e.status with
    | some s => if 500 ≤ s ∧ s < 600 then .err .internal else .err .unknown
    | none => .err .unknown

/-! ## Roles (src/roles.rs) -/

/-- `struct AddRoleToUserRequest` in src/roles.rs. -/
structure AddRoleToUserRequest where
  user_id : String
  role : String
  deriving Repr, DecidableEq

/-- `AddRoleToUserRequest::new` in src/roles.rs lines 66-73. -/
def AddRoleToUserRequest.new (role : String) (user_id : String) : AddRoleToUserRequest where
  role := role
  user_id := user_id

/-- `struct AddRoleToUserResponse` in src/roles.rs. -/
structure AddRoleToUserResponse where
  status : String
  did_user_already_have_role : Option Bool
  deriving Repr, DecidableEq

/-- `enum AddRoleToUserError` in src/roles.rs. -/
inductive AddRoleToUserError where
  | badRequest (message : String)
  | invalidApiKey
  | userNotFound
  | unknownRole
  | internalError
  | unknown
  deriving Repr, DecidableEq

/-- The request built by `add_to_user` (src/roles.rs lines 17-21):
PUT to `core_url + ADD_ROLE_TO_USER_ENDPOINT`, with no headers attached
by the code. -/
def add_to_user_request (core_url : String) : BuiltRequest where
  method := "PUT"
  url := core_url ++ ADD_ROLE_TO_USER_ENDPOINT
  headers := []

/-- Response handling of `add_to_user` (src/roles.rs lines 23-57).
A transport error is matched on `err.status()`: 400 is
`BadRequest(err.to_string())`, 401 `InvalidApiKey`, 404 `UserNotFound`,
500 `InternalError`, any other status and the no-status case `Unknown`.
A delivered response has its body decoded
(`.expect("Should match struct")` panics when decoding fails); a body
status other than "OK" is `UnknownRole`; on "OK" the result is
`did_user_already_have_role` (`.expect(..)` panics when absent). -/
def add_to_user (resp : RustResult (Response AddRoleToUserResponse) ReqError) :
    Option (RustResult Bool AddRoleToUserError) :=
  match resp with
  | .err e =>
    some (.err (match e.status with
      | some s =>
        match s with
        | 400 => .badRequest e.msg
        | 401 => .invalidApiKey
        | 404 => .userNotFound
        | 500 => .internalError
        | _ => .unknown
      | none => .unknown))
  | .ok r =>
    match r.body with
    | none => none
    | some b =>
      if b.status ≠ "OK" then
        some (.err .unknownRole)
      else
        match b.did_user_already_have_role with
        | some v => some (.ok v)
        | none => none

/-! ## Sample values for concrete instantiations -/

/-- A concrete service configuration used in concrete evaluations. -/
def sampleConfig : SuperTokens where
  app_id := "public"
  tenant_id := "public"
  core_domain := "localhost:8080"
  api_key := "key"
  cdi_version := "4.0"

/-- A concrete `User` record used in concrete evaluations. -/
def sampleUser : User where
  id := "u1"
  is_primary_user := true
  tenant_ids := ["public"]
  time_joined := 0
  emails := ["a@b.c"]
  phone_numbers := []
  third_party := []
  login_methods := []

/-! ## Claim theorems -/

/-- C3 counterexample: the claim quantifies over every path fragment not
beginning with a separator, but the empty fragment does not begin with a
separator (it has no first character) and both resolvers panic on it
(`chars().next().unwrap()` on an empty iterator), returning no URL at
all instead of the claimed
`core_domain ++ "/appid-" ++ app_id ++ "/" ++ p` string. -/
theorem c3_resolver_empty_path_counterexample :
    "".data.head? ≠ some '/' ∧
    sampleConfig.get_url "" = none ∧
    sampleConfig.get_url "" ≠ some "localhost:8080/appid-public/" ∧
    sampleConfig.get_url_with_tenant "" = none ∧
    sampleConfig.get_url_with_tenant "" ≠ some "localhost:8080/appid-public/public/" := by
  decide

/-- C3 (amended): for every ServiceConfig and every nonempty path
fragment, when the first character is not a separator the
application-scoped resolver returns exactly
`core_domain ++ "/appid-" ++ app_id ++ "/" ++ p` and the tenant-scoped
resolver returns exactly
`core_domain ++ "/appid-" ++ app_id ++ "/" ++ tenant_id ++ "/" ++ p`;
when the first character is the separator both resolvers abort
construction (assertion failure, modelled as `none`). -/
theorem c3_resolver_urls (st : SuperTokens) (p : String) (c : Char)
    (hc : p.data.head? = some c) :
    (c ≠ '/' →
      st.get_url p = some (st.core_domain ++ "/appid-" ++ st.app_id ++ "/" ++ p) ∧
      st.get_url_with_tenant p
        = some (st.core_domain ++ "/appid-" ++ st.app_id ++ "/" ++ st.tenant_id ++ "/" ++ p)) ∧
    (c = '/' → st.get_url p = none ∧ st.get_url_with_tenant p = none) := by
  cases hd : p.data with
  | nil => rw [hd] at hc; simp at hc
  | cons a tl =>
    rw [hd] at hc
    simp only [List.head?_cons, Option.some.injEq] at hc
    subst hc
    constructor
    · intro h
      constructor <;>
        simp [SuperTokens.get_url, SuperTokens.get_url_with_tenant, hd, h]
    · intro h
      constructor <;>
        simp [SuperTokens.get_url, SuperTokens.get_url_with_tenant, hd, h]

/-- Witness for C3 (amended): concrete instantiations at the fragment
"recipe/jwt" (first character not a separator) and at "/recipe/jwt"
(leading separator). -/
theorem c3_resolver_urls_witness :
    (sampleConfig.get_url "recipe/jwt"
        = some (sampleConfig.core_domain ++ "/appid-" ++ sampleConfig.app_id ++ "/" ++ "recipe/jwt") ∧
      sampleConfig.get_url_with_tenant "recipe/jwt"
        = some (sampleConfig.core_domain ++ "/appid-" ++ sampleConfig.app_id ++ "/" ++
            sampleConfig.tenant_id ++ "/" ++ "recipe/jwt")) ∧
    (sampleConfig.get_url "/recipe/jwt" = none ∧
      sampleConfig.get_url_with_tenant "/recipe/jwt" = none) :=
  ⟨(c3_resolver_urls sampleConfig "recipe/jwt" 'r' (by decide)).1 (by decide),
    (c3_resolver_urls sampleConfig "/recipe/jwt" '/' (by decide)).2 rfl⟩

/-- C9: for every ServiceConfig, both URL resolvers abort (panic on
taking the first character of an empty string, modelled as `none`) on the
empty path fragment, even though the empty string does not begin with a
separator. -/
theorem c9_resolvers_panic_on_empty_path (st : SuperTokens) :
    st.get_url "" = none ∧
    st.get_url_with_tenant "" = none ∧
    "".data.head? ≠ some '/' := by
  exact ⟨rfl, rfl, by decide⟩

/-- C4: for every ServiceConfig, the header builder applied to a
capability yields a header set whose `rid` entry is the lowercased recipe
string of that capability (emailpassword, passwordless, thirdparty or
jwt), applied to `none` yields a set with no `rid` entry, and in both
cases `api-key` equals the configured api_key and `cdi-version` equals
the configured cdi_version. -/
theorem c4_header_builder (st : SuperTokens) :
    (∀ r : Recipe, (st.get_headers (some r)).lookup "rid" = some r.rid) ∧
    Recipe.emailPassword.rid = "emailpassword" ∧
    Recipe.passwordLess.rid = "passwordless" ∧
    Recipe.thirdParty.rid = "thirdparty" ∧
    Recipe.jwt.rid = "jwt" ∧
    (st.get_headers none).lookup "rid" = none ∧
    (∀ o : Option Recipe,
      (st.get_headers o).lookup "api-key" = some st.api_key ∧
      (st.get_headers o).lookup "cdi-version" = some st.cdi_version) := by
  refine ⟨fun r => ?_, rfl, rfl, rfl, rfl, ?_, fun o => ?_⟩
  · simp [SuperTokens.get_headers, List.lookup]
  · simp [SuperTokens.get_headers, List.lookup]
  · cases o <;> simp [SuperTokens.get_headers, List.lookup]

/-- C10: for every core_url, the key-retrieval request URL is the plain
concatenation of core_url and ".well-known/jwks.json" and the
role-assignment request URL is the plain concatenation of core_url and
"recipe/user/role", with no separator inserted (the character list of the
result is exactly the two character lists appended); at the concrete
domain "localhost:8080" without a trailing slash the paths fuse directly
onto the last domain segment. -/
theorem c10_raw_url_concatenation (core_url : String) :
    (get_jwks_request core_url).url = core_url ++ ".well-known/jwks.json" ∧
    (add_to_user_request core_url).url = core_url ++ "recipe/user/role" ∧
    (get_jwks_request core_url).url.data
      = core_url.data ++ ".well-known/jwks.json".data ∧
    (add_to_user_request core_url).url.data
      = core_url.data ++ "recipe/user/role".data ∧
    (get_jwks_request "localhost:8080").url = "localhost:8080.well-known/jwks.json" ∧
    (add_to_user_request "localhost:8080").url = "localhost:8080recipe/user/role" := by
  refine ⟨rfl, rfl, ?_, ?_, by decide, by decide⟩ <;>
    (cases core_url; rfl)

/-- C1: for each operation, a delivered response with HTTP status 200
whose decoded body has status field "OK" yields the success value of the
operation (built from the body fields, assumed present as the wire
contract guarantees for an OK body), and a status field other than "OK"
yields the specific non-OK error variant of the operation
(wrong-credentials for sign-in, unsupported-algorithm for token issuance,
unknown-role for role assignment) and never the success case. -/
theorem c1_status200_body_status_classification :
    (∀ (r : Response SignInResponseRaw) (json : SignInResponseRaw) (uid : String) (u : User),
      r.status = 200 → r.body = some json → json.status = "OK" →
      json.recipe_user_id = some uid → json.user = some u →
      sign_in (.ok r) = some (.ok { user := u, user_id := uid })) ∧
    (∀ (r : Response SignInResponseRaw) (json : SignInResponseRaw),
      r.status = 200 → r.body = some json → json.status ≠ "OK" →
      sign_in (.ok r) = some (.err .wrongCredentials) ∧
      ∀ v : SignInSuccess, sign_in (.ok r) ≠ some (.ok v)) ∧
    (∀ (r : Response JwtResponsePayload) (p : JwtResponsePayload) (jwt : String),
      r.status = 200 → r.body = some p → p.status = "OK" → p.jwt = some jwt →
      create_token_classify (.ok r) = some (.ok jwt)) ∧
    (∀ (r : Response JwtResponsePayload) (p : JwtResponsePayload),
      r.status = 200 → r.body = some p → p.status ≠ "OK" →
      create_token_classify (.ok r) = some (.err .unsupportedAlgorithm) ∧
      ∀ v : String, create_token_classify (.ok r) ≠ some (.ok v)) ∧
    (∀ (r : Response AddRoleToUserResponse) (b : AddRoleToUserResponse) (v : Bool),
      r.status = 200 → r.body = some b → b.status = "OK" →
      b.did_user_already_have_role = some v →
      add_to_user (.ok r) = some (.ok v)) ∧
    (∀ (r : Response AddRoleToUserResponse) (b : AddRoleToUserResponse),
      r.status = 200 → r.body = some b → b.status ≠ "OK" →
      add_to_user (.ok r) = some (.err .unknownRole) ∧
      ∀ v : Bool, add_to_user (.ok r) ≠ some (.ok v)) := by
  refine ⟨?_, ?_, ?_, ?_, ?_, ?_⟩
  · intro r json uid u h200 hb hs hu hv
    simp [sign_in, h200, hb, hs, hu, hv]
  · intro r json h200 hb hs
    constructor <;> simp [sign_in, h200, hb, hs]
  · intro r p jwt _h200 hb hs hj
    simp [create_token_classify, hb, hs, hj]
  · intro r p _h200 hb hs
    constructor <;> simp [create_token_classify, hb, hs]
  · intro r b v _h200 hb hs hrole
    simp [add_to_user, hb, hs, hrole]
  · intro r b _h200 hb hs
    constructor <;> simp [add_to_user, hb, hs]

/-- Witness for C1: concrete 200 responses with OK and non-OK body
status fields for all three operations. -/
theorem c1_status200_body_status_classification_witness :
    sign_in (.ok { status := 200, text := none,
                   body := some { status := "OK", user := some sampleUser,
                                  recipe_user_id := some "u1" } })
      = some (.ok { user := sampleUser, user_id := "u1" }) ∧
    sign_in (.ok { status := 200, text := none,
                   body := some { status := "WRONG_CREDENTIALS_ERROR", user := none,
                                  recipe_user_id := none } })
      = some (.err .wrongCredentials) ∧
    create_token_classify (.ok { status := 200, text := none,
                                 body := some { status := "OK", jwt := some "token123" } })
      = some (.ok "token123") ∧
    create_token_classify (.ok { status := 200, text := none,
                                 body := some { status := "UNSUPPORTED_ALGORITHM_ERROR",
                                                jwt := none } })
      = some (.err .unsupportedAlgorithm) ∧
    add_to_user (.ok { status := 200, text := none,
                       body := some { status := "OK",
                                      did_user_already_have_role := some true } })
      = some (.ok true) ∧
    add_to_user (.ok { status := 200, text := none,
                       body := some { status := "UNKNOWN_ROLE_ERROR",
                                      did_user_already_have_role := none } })
      = some (.err .unknownRole) :=
  ⟨c1_status200_body_status_classification.1 _ _ "u1" sampleUser rfl rfl rfl rfl rfl,
    (c1_status200_body_status_classification.2.1 _ _ rfl rfl (by decide)).1,
    c1_status200_body_status_classification.2.2.1 _ _ "token123" rfl rfl rfl rfl,
    (c1_status200_body_status_classification.2.2.2.1 _ _ rfl rfl (by decide)).1,
    c1_status200_body_status_classification.2.2.2.2.1 _ _ true rfl rfl rfl rfl,
    (c1_status200_body_status_classification.2.2.2.2.2 _ _ rfl rfl (by decide)).1⟩

/-- C2 counterexample: for role assignment, a status-carrying error
outcome with code 400 does not carry the raw response body text: the
error channel carries no response body at all, and the code puts the
transport error display string into the bad-request payload
(roles.rs line 29, `err.to_string()`). Formalizing the claim as
"whatever the raw body text of the exchanged response was, the
bad-request payload equals it" is therefore refuted at a concrete
error whose display string differs from the posited body text. -/
theorem c2_roles_bad_request_payload_counterexample :
    ¬ (∀ (e : ReqError) (bodyText : String), e.status = some 400 →
        add_to_user (.err e) = some (.err (.badRequest bodyText))) := by
  intro h
  have h1 := h { status := some 400, msg := "error sending request" } "role body text" rfl
  have h2 : add_to_user (.err { status := some 400, msg := "error sending request" })
      = some (.err (.badRequest "error sending request")) := by decide
  exact absurd (h2.symm.trans h1) (by decide)

/-- C2 (amended): for sign-in, a delivered response with status 400
yields bad-request carrying the raw response body text (or the fixed
placeholder "Bad Request" when the text cannot be read), 401 yields
invalid-API-key, 404 yields not-found, 500 yields internal, and any
other status outside 200/400/401/404/500 yields unknown, independent of
body content; for role assignment, an error outcome carrying status 400
yields bad-request carrying the transport error display string (the
response body is not available on the error path), 401 yields
invalid-API-key, 404 yields user-not-found, 500 yields internal, and any
other carried status outside 400/401/404/500 yields unknown. -/
theorem c2_http_error_status_classification :
    (∀ (r : Response SignInResponseRaw),
      (r.status = 400 →
        sign_in (.ok r) = some (.err (.badRequest (r.text.getD "Bad Request")))) ∧
      (∀ t : String, r.status = 400 → r.text = some t →
        sign_in (.ok r) = some (.err (.badRequest t))) ∧
      (r.status = 401 → sign_in (.ok r) = some (.err .invalidApiKey)) ∧
      (r.status = 404 → sign_in (.ok r) = some (.err .notFound)) ∧
      (r.status = 500 → sign_in (.ok r) = some (.err .internalError)) ∧
      (r.status ∉ ([200, 400, 401, 404, 500] : List Nat) →
        sign_in (.ok r) = some (.err .unknown))) ∧
    (∀ e : ReqError,
      (e.status = some 400 → add_to_user (.err e) = some (.err (.badRequest e.msg))) ∧
      (e.status = some 401 → add_to_user (.err e) = some (.err .invalidApiKey)) ∧
      (e.status = some 404 → add_to_user (.err e) = some (.err .userNotFound)) ∧
      (e.status = some 500 → add_to_user (.err e) = some (.err .internalError)) ∧
      (∀ s : Nat, e.status = some s → s ∉ ([400, 401, 404, 500] : List Nat) →
        add_to_user (.err e) = some (.err .unknown))) := by
  constructor
  · intro r
    refine ⟨fun h => ?_, fun t h ht => ?_, fun h => ?_, fun h => ?_, fun h => ?_, fun h => ?_⟩
    · simp [sign_in, h]
    · simp [sign_in, h, ht]
    · simp [sign_in, h]
    · simp [sign_in, h]
    · simp [sign_in, h]
    · simp only [List.mem_cons, List.mem_singleton, not_or] at h
      obtain ⟨h200, h400, h401, h404, h500, _⟩ := h
      simp only [sign_in, h200, if_false, if_neg h200]
  · intro e
    refine ⟨fun h => ?_, fun h => ?_, fun h => ?_, fun h => ?_, fun s hs h => ?_⟩
    · simp [add_to_user, h]
    · simp [add_to_user, h]
    · simp [add_to_user, h]
    · simp [add_to_user, h]
    · simp only [List.mem_cons, List.mem_singleton, not_or] at h
      obtain ⟨h400, h401, h404, h500, _⟩ := h
      simp only [add_to_user, hs]

/-- Witness for C2 (amended): concrete responses and error outcomes for
each classified status. -/
theorem c2_http_error_status_classification_witness :
    sign_in (.ok { status := 400, text := some "email field missing", body := none })
      = some (.err (.badRequest "email field missing")) ∧
    sign_in (.ok { status := 401, text := none, body := none })
      = some (.err .invalidApiKey) ∧
    sign_in (.ok { status := 404, text := none, body := none })
      = some (.err .notFound) ∧
    sign_in (.ok { status := 500, text := none, body := none })
      = some (.err .internalError) ∧
    sign_in (.ok { status := 418, text := none, body := none })
      = some (.err .unknown) ∧
    add_to_user (.err { status := some 400, msg := "bad request for url" })
      = some (.err (.badRequest "bad request for url")) ∧
    add_to_user (.err { status := some 401, msg := "" }) = some (.err .invalidApiKey) ∧
    add_to_user (.err { status := some 404, msg := "" }) = some (.err .userNotFound) ∧
    add_to_user (.err { status := some 500, msg := "" }) = some (.err .internalError) ∧
    add_to_user (.err { status := some 418, msg := "" }) = some (.err .unknown) :=
  ⟨(c2_http_error_status_classification.1 _).2.1 "email field missing" rfl rfl,
    (c2_http_error_status_classification.1 _).2.2.1 rfl,
    (c2_http_error_status_classification.1 _).2.2.2.1 rfl,
    (c2_http_error_status_classification.1 _).2.2.2.2.1 rfl,
    (c2_http_error_status_classification.1 _).2.2.2.2.2 (by decide),
    (c2_http_error_status_classification.2 _).1 rfl,
    (c2_http_error_status_classification.2 _).2.1 rfl,
    (c2_http_error_status_classification.2 _).2.2.1 rfl,
    (c2_http_error_status_classification.2 _).2.2.2.1 rfl,
    (c2_http_error_status_classification.2 _).2.2.2.2 418 rfl (by decide)⟩

/-- C5 counterexample: the classifiers are not total over every possible
body: a delivered response with status 200 whose body does not decode
into the operation schema makes sign-in, token issuance and role
assignment abort (`.expect(..)` panics, modelled as `none`) instead of
returning a value of the result type. -/
theorem c5_undecodable_body_aborts_counterexample :
    sign_in (.ok { status := 200, text := some "not the schema", body := none }) = none ∧
    create_token_classify (.ok { status := 200, text := some "not the schema", body := none })
      = none ∧
    add_to_user (.ok { status := 200, text := some "not the schema", body := none }) = none := by
  decide

/-- C5 (amended): each classifier returns exactly one value of its
result type for every transport failure (with any carried status), for
every sign-in response with status other than 200, and for every
delivered response whose body decodes into the operation schema and,
when its status field is "OK", carries the success fields; key retrieval
is total for every response and transport failure outright. -/
theorem c5_classifier_totality :
    (∀ e : ReqError,
      (sign_in (.err e)).isSome ∧
      (create_token_classify (.err e)).isSome ∧
      (add_to_user (.err e)).isSome) ∧
    (∀ r : Response SignInResponseRaw, r.status ≠ 200 → (sign_in (.ok r)).isSome) ∧
    (∀ (r : Response SignInResponseRaw) (json : SignInResponseRaw),
      r.body = some json →
      (json.status = "OK" → json.recipe_user_id.isSome ∧ json.user.isSome) →
      (sign_in (.ok r)).isSome) ∧
    (∀ (r : Response JwtResponsePayload) (p : JwtResponsePayload),
      r.body = some p → (p.status = "OK" → p.jwt.isSome) →
      (create_token_classify (.ok r)).isSome) ∧
    (∀ (r : Response AddRoleToUserResponse) (b : AddRoleToUserResponse),
      r.body = some b → (b.status = "OK" → b.did_user_already_have_role.isSome) →
      (add_to_user (.ok r)).isSome) ∧
    (∀ resp : RustResult (Response Jwks) ReqError,
      (∃ v : Jwks, get_jwks resp = .ok v) ∨
      get_jwks resp = .err .responseFormat ∨
      get_jwks resp = .err .internal ∨
      get_jwks resp = .err .unknown) := by
  refine ⟨?_, ?_, ?_, ?_, ?_, ?_⟩
  · intro e
    refine ⟨by simp [sign_in], ?_, ?_⟩
    · cases hs : e.status with
      | none => simp [create_token_classify, hs]
      | some s => simp [create_token_classify, hs]
    · cases hs : e.status with
      | none => simp [add_to_user, hs]
      | some s => simp [add_to_user, hs]
  · intro r h200
    simp [sign_in, h200]
  · intro r json hb hfields
    by_cases h200 : r.status = 200
    · by_cases hok : json.status = "OK"
      · obtain ⟨hu, hv⟩ := hfields hok
        obtain ⟨uid, huid⟩ := Option.isSome_iff_exists.mp hu
        obtain ⟨u, hus⟩ := Option.isSome_iff_exists.mp hv
        simp [sign_in, h200, hb, hok, huid, hus]
      · simp [sign_in, h200, hb, hok]
    · simp [sign_in, h200]
  · intro r p hb hfields
    by_cases hok : p.status = "OK"
    · obtain ⟨jwt, hj⟩ := Option.isSome_iff_exists.mp (hfields hok)
      simp [create_token_classify, hb, hok, hj]
    · simp [create_token_classify, hb, hok]
  · intro r b hb hfields
    by_cases hok : b.status = "OK"
    · obtain ⟨v, hv⟩ := Option.isSome_iff_exists.mp (hfields hok)
      simp [add_to_user, hb, hok, hv]
    · simp [add_to_user, hb, hok]
  · intro resp
    cases resp with
    | ok r =>
      cases hb : r.body with
      | none => exact Or.inr (Or.inl (by simp [get_jwks, hb]))
      | some v => exact Or.inl ⟨v, by simp [get_jwks, hb]⟩
    | err e =>
      cases hs : e.status with
      | none => exact Or.inr (Or.inr (Or.inr (by simp [get_jwks, hs])))
      | some s =>
        by_cases hr : 500 ≤ s ∧ s < 600
        · exact Or.inr (Or.inr (Or.inl (by simp [get_jwks, hs, hr])))
        · exact Or.inr (Or.inr (Or.inr (by simp [get_jwks, hs, hr])))

/-- Witness for C5 (amended): concrete inputs on each covered branch. -/
theorem c5_classifier_totality_witness :
    (sign_in (.err { status := none, msg := "connection refused" })).isSome ∧
    (sign_in (.ok { status := 404, text := none, body := none })).isSome ∧
    (sign_in (.ok { status := 200, text := none,
                    body := some { status := "WRONG_CREDENTIALS_ERROR", user := none,
                                   recipe_user_id := none } })).isSome ∧
    (create_token_classify (.ok { status := 200, text := none,
                                  body := some { status := "OK",
                                                 jwt := some "tok" } })).isSome ∧
    (add_to_user (.ok { status := 200, text := none,
                        body := some { status := "OK",
                                       did_user_already_have_role := some false } })).isSome ∧
    ((∃ v : Jwks, get_jwks (.ok { status := 200, text := some "garbage", body := none }) = .ok v) ∨
      get_jwks (.ok { status := 200, text := some "garbage", body := none })
        = .err .responseFormat ∨
      get_jwks (.ok { status := 200, text := some "garbage", body := none }) = .err .internal ∨
      get_jwks (.ok { status := 200, text := some "garbage", body := none }) = .err .unknown) :=
  ⟨(c5_classifier_totality.1 { status := none, msg := "connection refused" }).1,
    c5_classifier_totality.2.1 _ (by decide),
    c5_classifier_totality.2.2.1 _ _ rfl (by decide),
    c5_classifier_totality.2.2.2.1 _ _ rfl (by decide),
    c5_classifier_totality.2.2.2.2.1 _ _ rfl (by decide),
    c5_classifier_totality.2.2.2.2.2 _⟩

/-- C6 counterexample: the key-retrieval and role-assignment requests
carry no headers at all: neither an api-key entry nor a cdi-version
entry, refuting the claim that every request of every operation carries
them. -/
theorem c6_headerless_requests_counterexample :
    (get_jwks_request "http://localhost:3567/").headers.lookup "api-key" = none ∧
    (get_jwks_request "http://localhost:3567/").headers.lookup "cdi-version" = none ∧
    (add_to_user_request "http://localhost:3567/").headers.lookup "api-key" = none ∧
    (add_to_user_request "http://localhost:3567/").headers.lookup "cdi-version" = none := by
  decide

/-- C6 (amended): the sign-in and token-issuance requests carry api-key
and cdi-version equal to the configured values together with the rid
header (emailpassword for sign-in, jwt for token issuance), and these
requests are built for every configuration; the key-retrieval and
role-assignment requests carry no headers at all. -/
theorem c6_request_headers (st : SuperTokens) (core_url : String) :
    (∀ q : BuiltRequest, sign_in_request st = some q →
      q.headers.lookup "api-key" = some st.api_key ∧
      q.headers.lookup "cdi-version" = some st.cdi_version ∧
      q.headers.lookup "rid" = some "emailpassword") ∧
    (sign_in_request st).isSome ∧
    (∀ q : BuiltRequest, create_token_request st = some q →
      q.headers.lookup "api-key" = some st.api_key ∧
      q.headers.lookup "cdi-version" = some st.cdi_version ∧
      q.headers.lookup "rid" = some "jwt") ∧
    (create_token_request st).isSome ∧
    (get_jwks_request core_url).headers = [] ∧
    (add_to_user_request core_url).headers = [] := by
  have hs : sign_in_request st
      = some { method := "POST",
               url := st.core_domain ++ "/appid-" ++ st.app_id ++ "/" ++ st.tenant_id ++ "/"
                 ++ ENDPOINT_RECIPE_SIGNIN,
               headers := st.get_headers (some .emailPassword) } := rfl
  have hj : create_token_request st
      = some { method := "POST",
               url := st.core_domain ++ "/appid-" ++ st.app_id ++ "/" ++ ENDPOINT_JWT,
               headers := st.get_headers (some .jwt) } := rfl
  refine ⟨?_, ?_, ?_, ?_, rfl, rfl⟩
  · intro q hq
    obtain rfl := Option.some.inj (hs.symm.trans hq)
    refine ⟨?_, ?_, ?_⟩ <;> simp [SuperTokens.get_headers, Recipe.rid, List.lookup]
  · simp [hs]
  · intro q hq
    obtain rfl := Option.some.inj (hj.symm.trans hq)
    refine ⟨?_, ?_, ?_⟩ <;> simp [SuperTokens.get_headers, Recipe.rid, List.lookup]
  · simp [hj]

/-- Witness for C6 (amended): the concrete requests built from the
sample configuration. -/
theorem c6_request_headers_witness :
    (((sign_in_request sampleConfig).map BuiltRequest.headers).getD []).lookup "api-key"
      = some "key" ∧
    (((sign_in_request sampleConfig).map BuiltRequest.headers).getD []).lookup "rid"
      = some "emailpassword" ∧
    (((create_token_request sampleConfig).map BuiltRequest.headers).getD []).lookup "rid"
      = some "jwt" ∧
    (get_jwks_request "localhost:8080/").headers = [] ∧
    (add_to_user_request "localhost:8080/").headers = [] := by
  have h := c6_request_headers sampleConfig "localhost:8080/"
  have h1 := h.1 _ rfl
  have h2 := h.2.2.1 _ rfl
  exact ⟨h1.1, h1.2.2, h2.2.2, h.2.2.2.2.1, h.2.2.2.2.2⟩

/-- C7 counterexample: the u32 cast in the token-issuance body
construction truncates the second count modulo two to the thirty-second
power: a supplied expiration of 4294967296 seconds is sent as
validity 0, not as the supplied number of seconds. -/
theorem c7_validity_truncation_counterexample :
    (create_token_body () sampleConfig (some 4294967296)).validity = 0 ∧
    (create_token_body () sampleConfig (some 4294967296)).validity ≠ 4294967296 := by
  decide

/-- C7 (amended): for every payload, configuration and optional
expiration, the token-issuance body has algorithm "RS256", jwksDomain
equal to the configured core domain, useStaticSigningKey true, payload
passed through unchanged, and validity equal to the supplied expiration
second count reduced modulo two to the thirty-second power (so equal to
the supplied count whenever it is below 4294967296); when no expiration
is supplied, validity is 86400. -/
theorem c7_token_body_fields {T : Type} (payload : T) (st : SuperTokens)
    (expiration_time : Option Nat) :
    (create_token_body payload st expiration_time).algorithm = "RS256" ∧
    (create_token_body payload st expiration_time).jwks_domain = st.core_domain ∧
    (create_token_body payload st expiration_time).use_static_signing_key = true ∧
    (create_token_body payload st expiration_time).payload = payload ∧
    (create_token_body payload st expiration_time).validity
      = (expiration_time.getD DEFAULT_JWT_EXPIRATION_TIME) % 2 ^ 32 ∧
    (expiration_time = none → (create_token_body payload st expiration_time).validity = 86400) ∧
    (∀ secs : Nat, expiration_time = some secs → secs < 2 ^ 32 →
      (create_token_body payload st expiration_time).validity = secs) := by
  refine ⟨rfl, rfl, rfl, rfl, rfl, ?_, ?_⟩
  · rintro rfl
    exact (by decide : (86400 % 2 ^ 32 : Nat) = 86400)
  · rintro secs rfl hlt
    simpa [create_token_body, JwtCreationRequest.new] using Nat.mod_eq_of_lt hlt

/-- Witness for C7 (amended): the concrete body built with no expiration
supplied carries validity 86400, and a small supplied expiration passes
through unchanged. -/
theorem c7_token_body_fields_witness :
    (create_token_body () sampleConfig none).validity = 86400 ∧
    (create_token_body () sampleConfig (some 3600)).validity = 3600 :=
  ⟨(c7_token_body_fields () sampleConfig none).2.2.2.2.2.1 rfl,
    (c7_token_body_fields () sampleConfig (some 3600)).2.2.2.2.2.2 3600 rfl (by decide)⟩

/-- C8: for every delivered key-retrieval response whose body does not
decode into the key-set schema, the operation returns the
response-format-mismatch error and not the unknown error. -/
theorem c8_jwks_decode_failure (r : Response Jwks) (h : r.body = none) :
    get_jwks (.ok r) = .err .responseFormat ∧
    get_jwks (.ok r) ≠ .err .unknown := by
  constructor <;> simp [get_jwks, h]

/-- Witness for C8: a concrete 200 response whose body fails to decode. -/
theorem c8_jwks_decode_failure_witness :
    get_jwks (.ok { status := 200, text := some "ill-formed", body := none })
      = .err .responseFormat ∧
    get_jwks (.ok { status := 200, text := some "ill-formed", body := none })
      ≠ .err .unknown :=
  c8_jwks_decode_failure { status := 200, text := some "ill-formed", body := none } rfl

end Supertokens
